import Mathlib

/-
Verification of the core logic of the Krintox/urlshortener-GO repository
(src/main.go): a URL shortener with a two-tier mapping store consisting of a
fast in-memory map (`shortURLs`, guarded by a single mutex) and a durable
MongoDB collection. Since the mutex fully serializes every handler, each
handler is embedded as a pure function on an explicit system state; the
MongoDB driver calls are external collaborators and are embedded as oracle
parameters, with the honest collection behaviour given separately.
-/

namespace UrlShortener

/-- The fixed alphabet of `generateShortCode` (main.go line 142). -/
def charset : List Char :=
  "abcdefghijklmnopqrstuvwxyzABCDEFGHIJKLMNOPQRSTUVWXYZ0123456789".toList

/-- `codeLength := 6` (main.go line 143). -/
def codeLength : Nat := 6

/-- Go's `rand.Intn n` returns a value in `[0, n)`; the pseudo-random source is
embedded as a draw `x : Nat` supplied by an abstract stream, reduced into range
exactly as `Intn` guarantees. -/
def intn (n x : Nat) : Nat := x % n

/-- `generateShortCode` (main.go lines 141-151): builds a 6-byte string,
each byte `charset[rand.Intn(len(charset))]`, for an arbitrary state of the
random source given as the stream `rng` of successive draws. -/
def generateShortCode (rng : Nat → Nat) : String :=
  String.mk ((List.range codeLength).map fun i =>
    charset.get ⟨intn charset.length (rng i), Nat.mod_lt _ (by decide)⟩)

/-- The document shape stored in the `urls` collection (main.go lines 54-57). -/
structure URLMapping where
  code : String
  url : String
deriving DecidableEq

/-- Errors the MongoDB driver can report. `noDocuments` is the
`mongo.ErrNoDocuments` returned by `FindOne` on a miss; `connFailure` stands
for any transient driver/network error. -/
inductive MongoErr where
  | noDocuments
  | connFailure
deriving DecidableEq

/-- System state: the fast tier is the in-memory map `shortURLs`
(newest insert first, so a later `m[k] = v` shadows an earlier entry exactly
as a Go map overwrite does), the durable tier is the list of documents in the
MongoDB `urls` collection in insertion order. -/
structure Sys where
  fast : List (String × String)
  durable : List URLMapping
deriving DecidableEq

/-- Go map lookup `shortURLs[code]` with its `ok` flag, on the
newest-first association list. -/
def mapLookup : List (String × String) → String → Option String
  | [], _ => none
  | (k, v) :: rest, key => if k = key then some v else mapLookup rest key

/-- Honest behaviour of the driver call
`collection.FindOne(ctx, bson.M{"code": code}).Decode(&result)`: the first
document whose `code` field matches, or `mongo.ErrNoDocuments` if none. -/
def findOne (docs : List URLMapping) (code : String) : Except MongoErr URLMapping :=
  match docs.find? (fun d => d.code == code) with
  | some d => .ok d
  | none => .error .noDocuments

/-- `findInMongoDB` (main.go lines 161-169): runs the driver `FindOne` call
(given as the oracle `mongoFindOne`), returns `("", err)` on error and
`(result.URL, nil)` on success. -/
def findInMongoDB (mongoFindOne : String → Except MongoErr URLMapping)
    (code : String) : Except MongoErr String :=
  match mongoFindOne code with
  | .error e => .error e
  | .ok r => .ok r.url

/-- The caller-visible outcome of `redirectHandler`. -/
inductive RedirectResp where
  | seeOther (url : String)
  | notFound
deriving DecidableEq

/-- Full observable effect of one `redirectHandler` call: the HTTP response,
the fast tier after the call, and whether the durable tier was queried. -/
structure ResolveOut where
  resp : RedirectResp
  fast : List (String × String)
  queriedDurable : Bool
deriving DecidableEq

/-- `redirectHandler` (main.go lines 121-139): fast-tier lookup first; on a
hit redirect at once (the durable tier is never consulted); on a miss call
`findInMongoDB` and redirect iff `err == nil && url != ""`; otherwise 404.
The handler never writes to `shortURLs`, so the returned fast tier is the
input one. -/
def redirectHandler (mongoFindOne : String → Except MongoErr URLMapping)
    (fast : List (String × String)) (shortCode : String) : ResolveOut :=
  match mapLookup fast shortCode with
  | some originalURL => ⟨.seeOther originalURL, fast, false⟩
  | none =>
    match findInMongoDB mongoFindOne shortCode with
    | .ok url => if url ≠ "" then ⟨.seeOther url, fast, true⟩ else ⟨.notFound, fast, true⟩
    | .error _ => ⟨.notFound, fast, true⟩

/-- `resolve(code)` of the spec: `redirectHandler` run against the honest
durable collection of the state. -/
def resolve (st : Sys) (code : String) : ResolveOut :=
  redirectHandler (findOne st.durable) st.fast code

/-- The caller-visible outcome of `shortenHandler`: HTTP 400, HTTP 500, or
the 303 redirect `http.Redirect(w, r, loc, http.StatusSeeOther)`. -/
inductive ShortenResp where
  | badRequest
  | serverError
  | seeOther (loc : String)
deriving DecidableEq

/-- Full observable effect of one `shortenHandler` call: the HTTP response,
the code produced by `generateShortCode` during the call (`none` when the
handler returned before generating one), and the state after the call. -/
structure CreateOut where
  resp : ShortenResp
  genCode : Option String
  st : Sys
deriving DecidableEq

/-- `saveToMongoDB` (main.go lines 153-159): `collection.InsertOne` appends
the document on success; the oracle `insertErr` is the driver outcome
(`some e` when the durable tier rejects the insert). -/
def saveToMongoDB (insertErr : Option MongoErr) (docs : List URLMapping)
    (code url : String) : Except MongoErr (List URLMapping) :=
  match insertErr with
  | some e => .error e
  | none => .ok (docs ++ [⟨code, url⟩])

/-- `shortenHandler` (main.go lines 98-119): reject an empty `url` with
HTTP 400 before generating any code; otherwise generate a code, write the
mapping into the fast tier unconditionally, then attempt the durable insert;
on durable failure answer HTTP 500 without rolling back the fast-tier write;
on success answer with a redirect to `/`. -/
def shortenHandler (rng : Nat → Nat) (insertErr : Option MongoErr)
    (st : Sys) (url : String) : CreateOut :=
  if url = "" then ⟨.badRequest, none, st⟩
  else
    let shortCode := generateShortCode rng
    let fast2 := (shortCode, url) :: st.fast
    match saveToMongoDB insertErr st.durable shortCode url with
    | .error _ => ⟨.serverError, some shortCode, ⟨fast2, st.durable⟩⟩
    | .ok docs2 => ⟨.seeOther "/", some shortCode, ⟨fast2, docs2⟩⟩

/-- States reachable by the system: the empty initial state, any
`shortenHandler` call (with any random stream and any durable-insert
outcome), and a process restart, which empties the volatile fast tier while
the durable collection survives. `redirectHandler` does not change state. -/
inductive Reachable : Sys → Prop where
  | init : Reachable ⟨[], []⟩
  | create (rng : Nat → Nat) (ie : Option MongoErr) (url : String) {st : Sys} :
      Reachable st → Reachable (shortenHandler rng ie st url).st
  | restart {st : Sys} : Reachable st → Reachable ⟨[], st.durable⟩

/-- In every reachable state, every document of the durable collection has a
non-empty `url`: the only writer is `shortenHandler`, which rejects empty
URLs before touching either tier. -/
theorem reachable_durable_url_ne (st : Sys) (hr : Reachable st) :
    ∀ d ∈ st.durable, d.url ≠ "" := by
  induction hr with
  | init => intro d hd; simp at hd
  | create rng ie url hst ih =>
    intro d hd
    by_cases hu : url = ""
    · subst hu
      simp [shortenHandler] at hd
      exact ih d hd
    · cases ie with
      | some e =>
        simp [shortenHandler, hu, saveToMongoDB] at hd
        exact ih d hd
      | none =>
        simp [shortenHandler, hu, saveToMongoDB] at hd
        rcases hd with hd | hd
        · exact ih d hd
        · subst hd; exact hu
  | restart hst ih =>
    intro d hd
    exact ih d hd

/-- C2. For every state, random-source state and durable-insert outcome,
`create("")` answers HTTP 400 (`ValidationError`), generates no code, and
leaves the whole state — fast tier and durable tier — unchanged. -/
theorem empty_url_rejected (rng : Nat → Nat) (ie : Option MongoErr) (st : Sys) :
    shortenHandler rng ie st "" = ⟨.badRequest, none, st⟩ := rfl

/-- C6. For every state of the random source, the generated code has exactly
`codeLength = 6` characters, each drawn from `charset`, which is the
62-symbol alphanumeric alphabet. -/
theorem generator_shape (rng : Nat → Nat) :
    (generateShortCode rng).length = 6 ∧
    charset.length = 62 ∧
    (∀ ch ∈ charset, ch.isAlphanum = true) ∧
    ∀ ch ∈ (generateShortCode rng).toList, ch ∈ charset := by
  refine ⟨?_, by decide, by decide, ?_⟩
  · simp [generateShortCode, codeLength, String.length]
  · intro ch hch
    simp only [generateShortCode, String.toList, List.mem_map, List.mem_range] at hch
    obtain ⟨i, _, hEq⟩ := hch
    rw [← hEq]
    exact List.get_mem _ _ _

/-- `redirectHandler` never modifies the fast tier, on any path. -/
theorem redirectHandler_fast_eq (f : String → Except MongoErr URLMapping)
    (fast : List (String × String)) (c : String) :
    (redirectHandler f fast c).fast = fast := by
  unfold redirectHandler
  split
  · rfl
  · split
    · split <;> rfl
    · rfl

/-- C1. Round-trip: for any non-empty URL, after a successful create (durable
insert accepted) producing code `c`, an immediate `resolve c` redirects to
that URL. -/
theorem round_trip (rng : Nat → Nat) (st : Sys) (url : String) (h : url ≠ "") :
    ∃ c, (shortenHandler rng none st url).genCode = some c ∧
      (resolve (shortenHandler rng none st url).st c).resp = .seeOther url := by
  refine ⟨generateShortCode rng, ?_, ?_⟩ <;>
    simp [shortenHandler, h, saveToMongoDB, resolve, redirectHandler, mapLookup]

/-- Witness for C1 at a concrete input. -/
theorem round_trip_witness :
    ("http://x" : String) ≠ "" ∧
    ∃ c, (shortenHandler (fun _ => 0) none ⟨[], []⟩ "http://x").genCode = some c ∧
      (resolve (shortenHandler (fun _ => 0) none ⟨[], []⟩ "http://x").st c).resp
        = .seeOther "http://x" :=
  ⟨by decide, round_trip (fun _ => 0) ⟨[], []⟩ "http://x" (by decide)⟩

/-- C3. Fast-tier precedence: when the code is in the fast tier, the handler
redirects to the fast tier's URL, does not query the durable tier, and the
outcome is the same for every durable-tier oracle `f`, including one whose
every lookup errors. -/
theorem fast_tier_precedence (f : String → Except MongoErr URLMapping)
    (fast : List (String × String)) (c u : String)
    (h : mapLookup fast c = some u) :
    redirectHandler f fast c = ⟨.seeOther u, fast, false⟩ := by
  simp [redirectHandler, h]

/-- Witness for C3: an always-failing durable stub, yet the resolve succeeds
from the fast tier. -/
theorem fast_tier_precedence_witness :
    mapLookup [("abc123", "http://x")] "abc123" = some "http://x" ∧
    redirectHandler (fun _ => .error .connFailure) [("abc123", "http://x")] "abc123"
      = ⟨.seeOther "http://x", [("abc123", "http://x")], false⟩ :=
  ⟨by decide, fast_tier_precedence _ _ _ _ (by decide)⟩

/-- C4. Durable fallback: in any reachable state whose fast tier misses the
code while the durable collection holds a matching document `d` (e.g. the
fast tier was emptied by a restart), resolve redirects to the stored URL. -/
theorem durable_fallback (st : Sys) (c : String) (d : URLMapping)
    (hr : Reachable st) (hf : mapLookup st.fast c = none)
    (hd : st.durable.find? (fun x => x.code == c) = some d) :
    resolve st c = ⟨.seeOther d.url, st.fast, true⟩ := by
  have hmem : d ∈ st.durable := List.mem_of_find?_eq_some hd
  have hne : d.url ≠ "" := reachable_durable_url_ne st hr d hmem
  simp [resolve, redirectHandler, hf, findInMongoDB, findOne, hd, hne]

/-- Witness for C4: create in a fresh process, restart (fast tier lost),
then resolve from the durable tier alone. -/
theorem durable_fallback_witness :
    resolve ⟨[], [⟨"aaaaaa", "http://x"⟩]⟩ "aaaaaa"
      = ⟨.seeOther "http://x", [], true⟩ :=
  durable_fallback ⟨[], [⟨"aaaaaa", "http://x"⟩]⟩ "aaaaaa" ⟨"aaaaaa", "http://x"⟩
    (Reachable.restart (Reachable.create (fun _ => 0) none "http://x" Reachable.init))
    rfl (by decide)

/-- C5. Miss behaviour: with the code absent from the fast tier, a genuine
durable absence and a durable lookup error both produce HTTP 404, and the two
outcomes are equal, hence indistinguishable to the caller. -/
theorem miss_and_error_collapse (f : String → Except MongoErr URLMapping)
    (fast : List (String × String)) (docs : List URLMapping) (c : String)
    (e : MongoErr) (hf : mapLookup fast c = none)
    (hd : docs.find? (fun x => x.code == c) = none)
    (he : f c = .error e) :
    redirectHandler (findOne docs) fast c = ⟨.notFound, fast, true⟩ ∧
    redirectHandler f fast c = redirectHandler (findOne docs) fast c := by
  constructor <;> simp [redirectHandler, hf, findInMongoDB, findOne, hd, he]

/-- Witness for C5 with both tiers empty and a connectivity-error stub. -/
theorem miss_and_error_collapse_witness :
    redirectHandler (findOne []) [] "zzzzzz" = ⟨.notFound, [], true⟩ ∧
    redirectHandler (fun _ => .error .connFailure) [] "zzzzzz"
      = redirectHandler (findOne []) [] "zzzzzz" :=
  miss_and_error_collapse (fun _ => .error .connFailure) [] [] "zzzzzz"
    .connFailure (by decide) (by decide) rfl

/-- C7. When the durable insert fails during create of a non-empty URL, the
caller sees HTTP 500, the durable collection is unchanged, yet the fast-tier
write is not rolled back: the generated code resolves to the URL from the
fast tier under every durable-tier oracle, for the rest of the process
lifetime. -/
theorem durable_failure_not_rolled_back (rng : Nat → Nat) (st : Sys)
    (url : String) (e : MongoErr) (h : url ≠ "") :
    (shortenHandler rng (some e) st url).resp = .serverError ∧
    (shortenHandler rng (some e) st url).st.durable = st.durable ∧
    ∃ c, (shortenHandler rng (some e) st url).genCode = some c ∧
      ∀ f, redirectHandler f (shortenHandler rng (some e) st url).st.fast c
        = ⟨.seeOther url, (shortenHandler rng (some e) st url).st.fast, false⟩ := by
  refine ⟨?_, ?_, generateShortCode rng, ?_, fun f => ?_⟩ <;>
    simp [shortenHandler, h, saveToMongoDB, redirectHandler, mapLookup]

/-- Witness for C7 at a concrete input. -/
theorem durable_failure_not_rolled_back_witness :
    ("http://x" : String) ≠ "" ∧
    ((shortenHandler (fun _ => 0) (some .connFailure) ⟨[], []⟩ "http://x").resp
        = .serverError ∧
      (shortenHandler (fun _ => 0) (some .connFailure) ⟨[], []⟩ "http://x").st.durable
        = (⟨[], []⟩ : Sys).durable ∧
      ∃ c, (shortenHandler (fun _ => 0) (some .connFailure) ⟨[], []⟩ "http://x").genCode
          = some c ∧
        ∀ f, redirectHandler f
            (shortenHandler (fun _ => 0) (some .connFailure) ⟨[], []⟩ "http://x").st.fast c
          = ⟨.seeOther "http://x",
              (shortenHandler (fun _ => 0) (some .connFailure) ⟨[], []⟩ "http://x").st.fast,
              false⟩) :=
  ⟨by decide,
    durable_failure_not_rolled_back (fun _ => 0) ⟨[], []⟩ "http://x" .connFailure
      (by decide)⟩

/-- C8 counterexample: the success response of `shortenHandler` is the
constant redirect to `/`; two creates that generate different codes produce
identical responses, so the response does not return the generated code to
the caller. -/
theorem create_resp_hides_code :
    (shortenHandler (fun _ => 0) none ⟨[], []⟩ "http://x").resp
      = (shortenHandler (fun _ => 1) none ⟨[], []⟩ "http://x").resp ∧
    (shortenHandler (fun _ => 0) none ⟨[], []⟩ "http://x").genCode
      ≠ (shortenHandler (fun _ => 1) none ⟨[], []⟩ "http://x").genCode ∧
    (shortenHandler (fun _ => 0) none ⟨[], []⟩ "http://x").resp = .seeOther "/" :=
  ⟨rfl, by decide, rfl⟩

/-- C8 amended: a successful create of a non-empty URL generates a code and
records the mapping in the store, but its HTTP response is the redirect to
`/`; the code is not part of the response and reaches the caller only through
the listing page. -/
theorem create_success_redirects_home (rng : Nat → Nat) (st : Sys)
    (url : String) (h : url ≠ "") :
    (shortenHandler rng none st url).resp = .seeOther "/" ∧
    ∃ c, (shortenHandler rng none st url).genCode = some c ∧
      mapLookup (shortenHandler rng none st url).st.fast c = some url := by
  refine ⟨?_, generateShortCode rng, ?_, ?_⟩ <;>
    simp [shortenHandler, h, saveToMongoDB, mapLookup]

/-- Witness for the amended C8 at a concrete input. -/
theorem create_success_redirects_home_witness :
    ("http://x" : String) ≠ "" ∧
    ((shortenHandler (fun _ => 0) none ⟨[], []⟩ "http://x").resp = .seeOther "/" ∧
      ∃ c, (shortenHandler (fun _ => 0) none ⟨[], []⟩ "http://x").genCode = some c ∧
        mapLookup (shortenHandler (fun _ => 0) none ⟨[], []⟩ "http://x").st.fast c
          = some "http://x") :=
  ⟨by decide, create_success_redirects_home (fun _ => 0) ⟨[], []⟩ "http://x" (by decide)⟩

/-- C9. Resolve is read-only on the fast tier for every oracle and code; in
particular a durable hit is not written into the fast tier, so a repeated
resolve of a fast-tier-missing code queries the durable tier every time. -/
theorem resolve_no_repopulation (f : String → Except MongoErr URLMapping)
    (fast : List (String × String)) (c : String) :
    (redirectHandler f fast c).fast = fast ∧
    (mapLookup fast c = none →
      (redirectHandler f fast c).queriedDurable = true ∧
      (redirectHandler f (redirectHandler f fast c).fast c).queriedDurable = true) := by
  refine ⟨redirectHandler_fast_eq f fast c, fun hm => ?_⟩
  rw [redirectHandler_fast_eq f fast c]
  have hq : (redirectHandler f fast c).queriedDurable = true := by
    unfold redirectHandler
    rw [hm]
    cases hfind : findInMongoDB f c with
    | ok u => by_cases hu : u = "" <;> simp [hfind, hu]
    | error e => simp [hfind]
  exact ⟨hq, hq⟩

/-- Witness for C9: a durable hit is served, yet the fast tier stays empty
and the repeated resolve queries the durable tier again. -/
theorem resolve_no_repopulation_witness :
    (redirectHandler (findOne [⟨"aaaaaa", "http://x"⟩]) [] "aaaaaa").fast = [] ∧
    ((redirectHandler (findOne [⟨"aaaaaa", "http://x"⟩]) [] "aaaaaa").queriedDurable
        = true ∧
      (redirectHandler (findOne [⟨"aaaaaa", "http://x"⟩])
          (redirectHandler (findOne [⟨"aaaaaa", "http://x"⟩]) [] "aaaaaa").fast
          "aaaaaa").queriedDurable = true) :=
  ⟨(resolve_no_repopulation (findOne [⟨"aaaaaa", "http://x"⟩]) [] "aaaaaa").1,
    (resolve_no_repopulation (findOne [⟨"aaaaaa", "http://x"⟩]) [] "aaaaaa").2 rfl⟩

/-- C10. When the fast tier misses and the durable lookup succeeds but the
stored URL is the empty string, the handler answers HTTP 404 rather than
redirecting to the empty URL. -/
theorem empty_stored_url_is_miss (fast : List (String × String))
    (docs : List URLMapping) (c : String) (d : URLMapping)
    (hf : mapLookup fast c = none)
    (hd : docs.find? (fun x => x.code == c) = some d)
    (hu : d.url = "") :
    redirectHandler (findOne docs) fast c = ⟨.notFound, fast, true⟩ := by
  simp [redirectHandler, hf, findInMongoDB, findOne, hd, hu]

/-- Witness for C10: a durable document whose `url` field is empty. -/
theorem empty_stored_url_is_miss_witness :
    redirectHandler (findOne [⟨"c1", ""⟩]) [] "c1" = ⟨.notFound, [], true⟩ :=
  empty_stored_url_is_miss [] [⟨"c1", ""⟩] "c1" ⟨"c1", ""⟩
    (by decide) (by decide) rfl

end UrlShortener
